import Mathlib

/-!
Shallow embedding of the FinTrack offline-first synchronization core
(the DatabaseContext provider: local SQLite store, sync queue, push/pull
sync engine) together with theorems settling the specification claims.

Modelling conventions:
* SQLite tables are lists of row structures; AUTOINCREMENT ids are modelled
  by explicit counters in the state.
* REAL amounts are modelled as integers.
* A transaction-date string is represented by its parse result: an
  unparseable or missing date string is `none`, a valid calendar date is
  `some d`.
* The remote HTTP service is modelled as an oracle (`RemoteBehavior`)
  giving, per queue entry, the outcome of the corresponding network call.
* Fallible operations return `Except String`; a thrown JS error is
  `Except.error`.
-/

/-- A parsed calendar date (year, month, day). -/
structure Date where
  year : Nat
  month : Nat
  day : Nat
deriving DecidableEq, Repr

/-- Row of the `transactions` table (part_008 lines 190-202).
The `date_created` timestamp column is not modelled (no claim concerns it). -/
structure TxRow where
  id : Nat
  amount : Int
  description : String
  txType : String
  category : String
  transactionDate : Option Date
  userId : Nat
  syncStatus : String
  serverId : Option Nat
deriving DecidableEq, Repr

/-- Row of the `goals` table (part_008 lines 204-215). -/
structure GoalRow where
  id : Nat
  targetAmount : Int
  targetMonth : Nat
  targetYear : Nat
  userId : Nat
  syncStatus : String
  serverId : Option Nat
deriving DecidableEq, Repr

/-- Caller-supplied transaction payload (the `transaction : any` argument).
`date` is the parse result of the supplied date string. -/
structure TxInput where
  amount : Int
  desc : String
  txType : String
  category : String
  date : Option Date
deriving DecidableEq, Repr

/-- Caller-supplied goal payload (the `goal : any` argument). -/
structure GoalInput where
  targetAmount : Int
  targetMonth : Nat
  targetYear : Nat
deriving DecidableEq, Repr

/-- The JSON text stored in `sync_queue.data`, as a structured value:
the repository serializes either a transaction payload, a goal payload, or
a `\x7b server_id \x7d` object for deletes. -/
inductive QueueData where
  | txPayload (p : TxInput)
  | goalPayload (p : GoalInput)
  | deletePayload (serverId : Nat)
deriving DecidableEq, Repr

/-- Row of the `sync_queue` table (part_008 lines 217-224). -/
structure QueueEntry where
  id : Nat
  tableName : String
  recordId : Nat
  operation : String
  data : QueueData
deriving DecidableEq, Repr

/-- The local SQLite store: the three tables plus AUTOINCREMENT counters. -/
structure DBState where
  transactions : List TxRow
  goals : List GoalRow
  syncQueue : List QueueEntry
  nextTxId : Nat
  nextGoalId : Nat
  nextQueueId : Nat
deriving DecidableEq, Repr

/-- isValidDateString (part_010 lines 49-61): true exactly when the supplied
string parses to a valid calendar date; date strings are represented by their
parse result, so this is `Option.isSome`. -/
def isValidDateString : Option Date → Bool
  | none => false
  | some _ => true

/-- The row addTransaction inserts (part_008 lines 258-269): the validated
date, status pending, no server id, id from AUTOINCREMENT. -/
def newTxRow (uid : Nat) (txDate : Option Date) (tx : TxInput) (s : DBState) : TxRow :=
  { id := s.nextTxId
    amount := tx.amount
    description := tx.desc
    txType := tx.txType
    category := tx.category
    transactionDate := txDate
    userId := uid
    syncStatus := "pending"
    serverId := none }

/-- The queue entry addTransaction appends (part_008 lines 271-282): a
create intent whose payload carries the substituted date. -/
def newCreateEntry (txDate : Option Date) (tx : TxInput) (s : DBState) : QueueEntry :=
  { id := s.nextQueueId
    tableName := "transactions"
    recordId := s.nextTxId
    operation := "create"
    data := .txPayload { tx with date := txDate } }

/-- addTransaction (part_008 lines 247-288): guards on db and user, replaces
an invalid date by today, inserts the row, then appends a create intent;
returns the new local id. No amount validation is performed. -/
def addTransaction (db : Bool) (user : Option Nat) (today : Date) (tx : TxInput)
    (s : DBState) : Except String (DBState × Nat) :=
  if !db then .error "Database not initialized"
  else match user with
  | none => .error "User not authenticated"
  | some uid =>
    let txDate : Option Date := if isValidDateString tx.date then tx.date else some today
    .ok ({ s with
            transactions := s.transactions ++ [newTxRow uid txDate tx s]
            syncQueue := s.syncQueue ++ [newCreateEntry txDate tx s]
            nextTxId := s.nextTxId + 1
            nextQueueId := s.nextQueueId + 1 },
         s.nextTxId)

/-- The queue entry updateTransaction appends (part_008 lines 311-314). -/
def newUpdateEntry (id : Nat) (tx : TxInput) (s : DBState) : QueueEntry :=
  { id := s.nextQueueId
    tableName := "transactions"
    recordId := id
    operation := "update"
    data := .txPayload tx }

/-- updateTransaction (part_008 lines 290-319): an unconditional UPDATE
matching id and owner (affecting zero rows when absent — no existence
check, no NotFound), then always appends an update intent. The supplied
date is written as-is, unvalidated. -/
def updateTransaction (db : Bool) (user : Option Nat) (id : Nat) (tx : TxInput)
    (s : DBState) : Except String DBState :=
  if !db then .error "Database not initialized"
  else match user with
  | none => .error "User not authenticated"
  | some uid =>
    .ok { s with
          transactions := s.transactions.map (fun r =>
            if r.id = id ∧ r.userId = uid then
              { r with amount := tx.amount, description := tx.desc,
                       txType := tx.txType, category := tx.category,
                       transactionDate := tx.date, syncStatus := "pending" }
            else r)
          syncQueue := s.syncQueue ++ [newUpdateEntry id tx s]
          nextQueueId := s.nextQueueId + 1 }

/-- deleteTransaction (part_008 lines 321-353): looks the row up by id and
owner, throws NotFound when absent, deletes it, and appends a delete intent
carrying the captured server id only when that id is truthy (non-null and
non-zero in JS). -/
def deleteTransaction (db : Bool) (user : Option Nat) (id : Nat)
    (s : DBState) : Except String DBState :=
  if !db then .error "Database not initialized"
  else match user with
  | none => .error "User not authenticated"
  | some uid =>
    match s.transactions.find? (fun r => decide (r.id = id ∧ r.userId = uid)) with
    | none => .error "Transaction not found"
    | some existing =>
      let s1 := { s with
                  transactions := s.transactions.filter
                    (fun r => !decide (r.id = id ∧ r.userId = uid)) }
      match existing.serverId with
      | some sid =>
        if sid ≠ 0 then
          .ok { s1 with
                syncQueue := s1.syncQueue ++
                  [{ id := s1.nextQueueId, tableName := "transactions",
                     recordId := id, operation := "delete",
                     data := .deletePayload sid }]
                nextQueueId := s1.nextQueueId + 1 }
        else .ok s1
      | none => .ok s1

/-- addGoal (part_008 lines 370-394). -/
def addGoal (db : Bool) (user : Option Nat) (g : GoalInput)
    (s : DBState) : Except String (DBState × Nat) :=
  if !db then .error "Database not initialized"
  else match user with
  | none => .error "User not authenticated"
  | some uid =>
    .ok ({ s with
            goals := s.goals ++ [{ id := s.nextGoalId, targetAmount := g.targetAmount,
                                   targetMonth := g.targetMonth, targetYear := g.targetYear,
                                   userId := uid, syncStatus := "pending", serverId := none }]
            syncQueue := s.syncQueue ++
              [{ id := s.nextQueueId, tableName := "goals", recordId := s.nextGoalId,
                 operation := "create", data := .goalPayload g }]
            nextGoalId := s.nextGoalId + 1
            nextQueueId := s.nextQueueId + 1 },
         s.nextGoalId)

/-- updateGoal (part_008 lines 396-420): unconditional UPDATE by id and
owner, no existence check, then always appends an update intent. -/
def updateGoal (db : Bool) (user : Option Nat) (id : Nat) (g : GoalInput)
    (s : DBState) : Except String DBState :=
  if !db then .error "Database not initialized"
  else match user with
  | none => .error "User not authenticated"
  | some uid =>
    .ok { s with
          goals := s.goals.map (fun r =>
            if r.id = id ∧ r.userId = uid then
              { r with targetAmount := g.targetAmount, targetMonth := g.targetMonth,
                       targetYear := g.targetYear, syncStatus := "pending" }
            else r)
          syncQueue := s.syncQueue ++
            [{ id := s.nextQueueId, tableName := "goals", recordId := id,
               operation := "update", data := .goalPayload g }]
          nextQueueId := s.nextQueueId + 1 }

/-- deleteGoal (part_008 lines 422-454): same pattern as deleteTransaction. -/
def deleteGoal (db : Bool) (user : Option Nat) (id : Nat)
    (s : DBState) : Except String DBState :=
  if !db then .error "Database not initialized"
  else match user with
  | none => .error "User not authenticated"
  | some uid =>
    match s.goals.find? (fun r => decide (r.id = id ∧ r.userId = uid)) with
    | none => .error "Goal not found"
    | some existing =>
      let s1 := { s with
                  goals := s.goals.filter
                    (fun r => !decide (r.id = id ∧ r.userId = uid)) }
      match existing.serverId with
      | some sid =>
        if sid ≠ 0 then
          .ok { s1 with
                syncQueue := s1.syncQueue ++
                  [{ id := s1.nextQueueId, tableName := "goals",
                     recordId := id, operation := "delete",
                     data := .deletePayload sid }]
                nextQueueId := s1.nextQueueId + 1 }
        else .ok s1
      | none => .ok s1

/-- The effective owner id used by getTransactions: `user?.id || 0`. -/
def userIdOrZero : Option Nat → Nat
  | none => 0
  | some u => u

/-- getTransactions (part_008 lines 233-245): empty when the db is missing,
rows of `user?.id || 0` otherwise, and the catch converts a failed query
into the empty list. Ordering is not modelled. -/
def getTransactions (db : Bool) (user : Option Nat) (queryFails : Bool)
    (s : DBState) : Except String (List TxRow) :=
  if !db then .ok []
  else if queryFails then .ok []
  else .ok (s.transactions.filter (fun r => decide (r.userId = userIdOrZero user)))

/-- getGoals (part_008 lines 356-368): empty when db or user is missing,
and the catch converts a failed query into the empty list. -/
def getGoals (db : Bool) (user : Option Nat) (queryFails : Bool)
    (s : DBState) : Except String (List GoalRow) :=
  if !db then .ok []
  else match user with
  | none => .ok []
  | some uid =>
    if queryFails then .ok []
    else .ok (s.goals.filter (fun r => decide (r.userId = uid)))

/-- A stored transaction belongs to the given user and calendar month/year:
the embedding of the strftime month/year comparison on parsed dates (an
unparseable stored date matches no month). -/
def inMonth (uid month year : Nat) (r : TxRow) : Bool :=
  decide (r.userId = uid) &&
    (match r.transactionDate with
     | none => false
     | some d => decide (d.month = month ∧ d.year = year))

/-- getGoalProgress (part_008 lines 456-481): 0 when db or user is missing
or the query fails; otherwise the income sum minus the expense sum over the
month, floored at zero by Math.max. -/
def getGoalProgress (db : Bool) (user : Option Nat) (queryFails : Bool)
    (month year : Nat) (s : DBState) : Except String Int :=
  if !db then .ok 0
  else match user with
  | none => .ok 0
  | some uid =>
    if queryFails then .ok 0
    else
      let txs := s.transactions.filter (inMonth uid month year)
      let income := (txs.filter (fun t => t.txType == "income")).foldl
        (fun sum t => sum + t.amount) 0
      let expenses := (txs.filter (fun t => t.txType == "expense")).foldl
        (fun sum t => sum + t.amount) 0
      .ok (max 0 (income - expenses))

/-- clearLocalData (part_008 lines 1139-1151): three unfiltered DELETE
statements — every row of every user is removed from all three tables. -/
def clearLocalData (db : Bool) (s : DBState) : Except String DBState :=
  if !db then .error "Database not initialized"
  else .ok { s with transactions := [], goals := [], syncQueue := [] }

/-! ### Sync engine: push phase -/

/-- Outcome of a POST to a create endpoint: success carries the extracted
server-assigned id; conflict is HTTP 409; failure is any other thrown
error (network failure, non-2xx status, or an unusable response shape). -/
inductive PushResult where
  | success (serverId : Nat)
  | conflict
  | failure
deriving DecidableEq, Repr

/-- Oracle for the Remote Service: the outcome of the network call issued
for a queue entry. Responses are abstracted to their extracted content; the
array-vs-object envelope unwrapping of the source is below this interface. -/
structure RemoteBehavior where
  createResult : QueueEntry → PushResult
  updateOk : QueueEntry → Bool
  deleteOk : QueueEntry → Bool

/-- The id a transaction update is addressed to (part_008 lines 852-858):
the row's server id when present and truthy, otherwise the local record id.
This is the id in the PUT URL; the per-entry oracle's verdict abstracts the
response and does not depend on it. -/
def updateTargetId (uid : Nat) (e : QueueEntry) (s : DBState) : Nat :=
  match s.transactions.find? (fun r => decide (r.id = e.recordId ∧ r.userId = uid)) with
  | some r =>
    match r.serverId with
    | some sid => if sid ≠ 0 then sid else e.recordId
    | none => e.recordId
  | none => e.recordId

/-- The id a goal update is addressed to (part_008 lines 941-947). -/
def updateTargetIdGoal (uid : Nat) (e : QueueEntry) (s : DBState) : Nat :=
  match s.goals.find? (fun r => decide (r.id = e.recordId ∧ r.userId = uid)) with
  | some r =>
    match r.serverId with
    | some sid => if sid ≠ 0 then sid else e.recordId
    | none => e.recordId
  | none => e.recordId

/-- The `update` case of syncTransaction (part_008 lines 851-878): a PUT
addressed to `target`; on success, set sync_status to synced on the row
with the entry's record id (no user filter in that UPDATE); the server id
column is not written. On failure, throw. -/
def syncTransactionUpdate (beh : RemoteBehavior) (_target : Nat) (e : QueueEntry)
    (s : DBState) : Except String DBState :=
  if beh.updateOk e then
    .ok { s with transactions := s.transactions.map (fun r =>
            if r.id = e.recordId then { r with syncStatus := "synced" } else r) }
  else .error "update failed"

/-- syncTransaction (part_008 lines 807-900): create stores the extracted
server id and marks the row synced; a create rejected with status 409
is re-dispatched as an update with the same intent; update marks synced;
delete issues the remote delete; any other failure is rethrown. An unknown
operation falls through the switch and succeeds as a no-op. -/
def syncTransaction (beh : RemoteBehavior) (uid : Nat) (e : QueueEntry)
    (s : DBState) : Except String DBState :=
  if e.operation = "create" then
    match beh.createResult e with
    | .success sid =>
      .ok { s with transactions := s.transactions.map (fun r =>
              if r.id = e.recordId then
                { r with serverId := some sid, syncStatus := "synced" }
              else r) }
    | .conflict => syncTransactionUpdate beh (updateTargetId uid e s) e s
    | .failure => .error "create failed"
  else if e.operation = "update" then
    syncTransactionUpdate beh (updateTargetId uid e s) e s
  else if e.operation = "delete" then
    if beh.deleteOk e then .ok s else .error "delete failed"
  else .ok s

/-- The `update` case of syncGoal (part_008 lines 940-967). -/
def syncGoalUpdate (beh : RemoteBehavior) (_target : Nat) (e : QueueEntry)
    (s : DBState) : Except String DBState :=
  if beh.updateOk e then
    .ok { s with goals := s.goals.map (fun r =>
            if r.id = e.recordId then { r with syncStatus := "synced" } else r) }
  else .error "update failed"

/-- syncGoal (part_008 lines 902-989): same structure as syncTransaction,
against the goals table and endpoints. -/
def syncGoal (beh : RemoteBehavior) (uid : Nat) (e : QueueEntry)
    (s : DBState) : Except String DBState :=
  if e.operation = "create" then
    match beh.createResult e with
    | .success sid =>
      .ok { s with goals := s.goals.map (fun r =>
              if r.id = e.recordId then
                { r with serverId := some sid, syncStatus := "synced" }
              else r) }
    | .conflict => syncGoalUpdate beh (updateTargetIdGoal uid e s) e s
    | .failure => .error "create failed"
  else if e.operation = "update" then
    syncGoalUpdate beh (updateTargetIdGoal uid e s) e s
  else if e.operation = "delete" then
    if beh.deleteOk e then .ok s else .error "delete failed"
  else .ok s

/-- One iteration of the syncData queue loop (part_008 lines 767-796):
dispatch on the entry's table (an unknown table only logs a warning and is
treated as processed); on success the entry is deleted from the queue; on a
thrown error the entry is left in place and the loop continues. -/
def processEntry (beh : RemoteBehavior) (uid : Nat) (e : QueueEntry)
    (s : DBState) : Except String DBState :=
  if e.tableName = "transactions" then syncTransaction beh uid e s
  else if e.tableName = "goals" then syncGoal beh uid e s
  else .ok s

/-- Effect of one queue entry on the state, including the queue-row
deletion after success and the catch-and-continue after failure. -/
def pushStep (beh : RemoteBehavior) (uid : Nat) (s : DBState)
    (e : QueueEntry) : DBState :=
  match processEntry beh uid e s with
  | .ok s1 => { s1 with syncQueue := s1.syncQueue.filter (fun q => q.id ≠ e.id) }
  | .error _ => s

/-- The push phase of syncData (part_008 lines 760-796): iterate in order
over the queue snapshot read at the start of the run. -/
def pushPhase (beh : RemoteBehavior) (uid : Nat) (s : DBState) : DBState :=
  s.syncQueue.foldl (pushStep beh uid) s

/-- Whether processing a queue entry succeeds. With the per-entry oracle
this depends only on the entry: a create succeeds directly or via the
conflict-to-update fallback; unknown tables and operations are no-ops. -/
def entrySucceeds (beh : RemoteBehavior) (e : QueueEntry) : Bool :=
  if e.tableName = "transactions" ∨ e.tableName = "goals" then
    if e.operation = "create" then
      match beh.createResult e with
      | .success _ => true
      | .conflict => beh.updateOk e
      | .failure => false
    else if e.operation = "update" then beh.updateOk e
    else if e.operation = "delete" then beh.deleteOk e
    else true
  else true

/-! ### Sync engine: pull phase -/

/-- A transaction record as fetched from the remote list endpoint. -/
structure RemoteTx where
  id : Nat
  amount : Int
  desc : String
  txType : String
  category : String
  date : Option Date
deriving DecidableEq, Repr

/-- A goal record as fetched from the remote list endpoint. -/
structure RemoteGoal where
  id : Nat
  targetAmount : Int
  targetMonth : Nat
  targetYear : Nat
deriving DecidableEq, Repr

/-- The transaction upsert of pullLatestData (part_008 lines 1010-1051):
if a local row carries the remote record's id as server id, overwrite its
fields and mark it synced (the lookup does not consult sync_status, so a
pending row is overwritten too); otherwise insert a new synced row. -/
def upsertTx (uid : Nat) (s : DBState) (t : RemoteTx) : DBState :=
  if s.transactions.any (fun r => decide (r.serverId = some t.id ∧ r.userId = uid)) then
    { s with transactions := s.transactions.map (fun r =>
        if r.serverId = some t.id ∧ r.userId = uid then
          { r with amount := t.amount, description := t.desc, txType := t.txType,
                   category := t.category, transactionDate := t.date,
                   syncStatus := "synced" }
        else r) }
  else
    { s with
      transactions := s.transactions ++
        [{ id := s.nextTxId, amount := t.amount, description := t.desc,
           txType := t.txType, category := t.category, transactionDate := t.date,
           userId := uid, syncStatus := "synced", serverId := some t.id }]
      nextTxId := s.nextTxId + 1 }

/-- The goal upsert of pullLatestData (part_008 lines 1054-1107): update by
server id when matched; otherwise attach the remote id to the first
local-only goal of the same month/year (overwriting its target amount);
otherwise insert a new synced row. -/
def upsertGoal (uid : Nat) (s : DBState) (g : RemoteGoal) : DBState :=
  if s.goals.any (fun r => decide (r.serverId = some g.id ∧ r.userId = uid)) then
    { s with goals := s.goals.map (fun r =>
        if r.serverId = some g.id ∧ r.userId = uid then
          { r with targetAmount := g.targetAmount, targetMonth := g.targetMonth,
                   targetYear := g.targetYear, syncStatus := "synced" }
        else r) }
  else
    match s.goals.find? (fun r =>
        decide (r.userId = uid ∧ r.targetMonth = g.targetMonth ∧
                r.targetYear = g.targetYear ∧ r.serverId = none)) with
    | some lg =>
      { s with goals := s.goals.map (fun r =>
          if r.id = lg.id ∧ r.userId = uid then
            { r with targetAmount := g.targetAmount, serverId := some g.id,
                     syncStatus := "synced" }
          else r) }
    | none =>
      { s with
        goals := s.goals ++
          [{ id := s.nextGoalId, targetAmount := g.targetAmount,
             targetMonth := g.targetMonth, targetYear := g.targetYear,
             userId := uid, syncStatus := "synced", serverId := some g.id }]
        nextGoalId := s.nextGoalId + 1 }

/-- The transaction cleanup of pullLatestData (part_008 lines 1110-1121):
delete local rows marked synced whose server id is absent from the fetched
id set; SQL three-valued logic never deletes a NULL server id, and the
statement is skipped entirely when the fetched set is empty. -/
def cleanupTx (uid : Nat) (ids : List Nat) (s : DBState) : DBState :=
  if ids = [] then s
  else
    { s with transactions := s.transactions.filter (fun r =>
        !(decide (r.syncStatus = "synced") && decide (r.userId = uid) &&
          (match r.serverId with
           | none => false
           | some sid => decide (sid ∉ ids)))) }

/-- The goal cleanup of pullLatestData (part_008 lines 1124-1133). -/
def cleanupGoal (uid : Nat) (ids : List Nat) (s : DBState) : DBState :=
  if ids = [] then s
  else
    { s with goals := s.goals.filter (fun r =>
        !(decide (r.syncStatus = "synced") && decide (r.userId = uid) &&
          (match r.serverId with
           | none => false
           | some sid => decide (sid ∉ ids)))) }

/-- pullLatestData (part_008 lines 991-1137): no-op without token, user or
db. Both fetches precede every local write, and the whole body sits in a
try/catch that swallows any error, so a failed fetch (`fetchOk = false`)
returns normally having changed nothing. Otherwise it upserts each fetched
record and then deletes stale synced rows. -/
def pullLatestData (token db : Bool) (user : Option Nat) (fetchOk : Bool)
    (rts : List RemoteTx) (rgs : List RemoteGoal) (s : DBState) : DBState :=
  match user with
  | none => s
  | some uid =>
    if !token || !db then s
    else if !fetchOk then s
    else
      let s1 := rts.foldl (upsertTx uid) s
      let s2 := rgs.foldl (upsertGoal uid) s1
      let s3 := cleanupTx uid (rts.map RemoteTx.id) s2
      cleanupGoal uid (rgs.map RemoteGoal.id) s3

/-- syncData (part_008 lines 752-805): throws only when db, connectivity,
token or user is missing; then drains the queue with per-entry catches and
finally runs the pull. Nothing after the guard rethrows: per-entry errors
are caught in the loop and pullLatestData catches its own errors. -/
def syncData (db isOnline token : Bool) (user : Option Nat)
    (beh : RemoteBehavior) (fetchOk : Bool)
    (rts : List RemoteTx) (rgs : List RemoteGoal)
    (s : DBState) : Except String DBState :=
  match user with
  | none => .error "Cannot sync: check network connection and authentication"
  | some uid =>
    if !db || !isOnline || !token then
      .error "Cannot sync: check network connection and authentication"
    else
      .ok (pullLatestData token db (some uid) fetchOk rts rgs (pushPhase beh uid s))

/-! ### Storage statement traces (for the atomicity claim) -/

/-- A storage-level statement issued through the SQLite driver. Each
`runAsync` call outside an explicit transaction auto-commits on its own;
`beginTxn`/`commitTxn` would delimit a storage-level transaction. -/
inductive Stmt where
  | beginTxn
  | commitTxn
  | insertTxRow (r : TxRow)
  | insertQueueRow (q : QueueEntry)
  | updateTxRows (id uid : Nat) (tx : TxInput)
deriving DecidableEq, Repr

/-- Interpreter for storage statements. -/
def execStmt (s : DBState) : Stmt → DBState
  | .beginTxn => s
  | .commitTxn => s
  | .insertTxRow r =>
    { s with transactions := s.transactions ++ [r], nextTxId := s.nextTxId + 1 }
  | .insertQueueRow q =>
    { s with syncQueue := s.syncQueue ++ [q], nextQueueId := s.nextQueueId + 1 }
  | .updateTxRows id uid tx =>
    { s with transactions := s.transactions.map (fun r =>
        if r.id = id ∧ r.userId = uid then
          { r with amount := tx.amount, description := tx.desc,
                   txType := tx.txType, category := tx.category,
                   transactionDate := tx.date, syncStatus := "pending" }
        else r) }

/-- Run a list of statements in order. -/
def execStmts (s : DBState) (l : List Stmt) : DBState :=
  l.foldl execStmt s

/-- The exact statement sequence addTransaction issues on its success path
(part_008 lines 258-282): two separate `runAsync` calls, with no
transaction delimiters around them. -/
def addTransactionStmts (uid : Nat) (today : Date) (tx : TxInput)
    (s : DBState) : List Stmt :=
  let txDate : Option Date := if isValidDateString tx.date then tx.date else some today
  [ .insertTxRow (newTxRow uid txDate tx s),
    .insertQueueRow (newCreateEntry txDate tx s) ]

/-- The exact statement sequence updateTransaction issues on its success
path (part_008 lines 297-314): two separate `runAsync` calls, with no
transaction delimiters around them. -/
def updateTransactionStmts (uid id : Nat) (tx : TxInput)
    (s : DBState) : List Stmt :=
  [ .updateTxRows id uid tx,
    .insertQueueRow (newUpdateEntry id tx s) ]

/-! ### Specification-side definitions (for refinement comparisons) -/

/-- Modelled from the spec: the sum of the caller's income amounts in the
given calendar month and year. -/
def specIncomeSum (uid month year : Nat) (s : DBState) : Int :=
  ((s.transactions.filter (fun t => inMonth uid month year t && t.txType == "income")).map
    TxRow.amount).sum

/-- Modelled from the spec: the sum of the caller's expense amounts in the
given calendar month and year. -/
def specExpenseSum (uid month year : Nat) (s : DBState) : Int :=
  ((s.transactions.filter (fun t => inMonth uid month year t && t.txType == "expense")).map
    TxRow.amount).sum

/-! ### Sample data for witnesses and counterexamples -/

/-- A fresh empty store. -/
def emptyDB : DBState :=
  { transactions := [], goals := [], syncQueue := [], nextTxId := 1,
    nextGoalId := 1, nextQueueId := 1 }

/-- A sample calendar date. -/
def d0 : Date := { year := 2024, month := 3, day := 1 }

/-- A sample well-formed transaction input. -/
def tx0 : TxInput :=
  { amount := 50, desc := "Lunch", txType := "expense", category := "Food",
    date := some d0 }

/-- A sample goal input. -/
def g0 : GoalInput := { targetAmount := 100, targetMonth := 3, targetYear := 2024 }

/-! ### Helper lemmas -/

/-- Mapping a function that fixes every member is the identity. -/
theorem map_self_of_fix {α : Type} (l : List α) (f : α → α)
    (h : ∀ a ∈ l, f a = a) : l.map f = l := by
  induction l with
  | nil => rfl
  | cons a t ih =>
    simp only [List.map_cons, List.cons.injEq]
    exact ⟨h a (List.mem_cons_self a t), ih fun x hx => h x (List.mem_cons_of_mem a hx)⟩

/-- Folding addition of amounts equals the initial value plus the sum. -/
theorem foldl_amount_sum (l : List TxRow) (i : Int) :
    l.foldl (fun sum t => sum + t.amount) i = i + (l.map TxRow.amount).sum := by
  induction l generalizing i with
  | nil => simp
  | cons a t ih => simp [ih, add_assoc]

/-- A member fixed by the function stays a member after mapping. -/
theorem mem_map_of_fix {α : Type} {l : List α} {f : α → α} {a : α}
    (ha : a ∈ l) (hf : f a = a) : a ∈ l.map f :=
  hf ▸ List.mem_map_of_mem f ha

/-! ### Claim C7 -/

/-- A transaction row owned by user 2. -/
def txUser2 : TxRow :=
  { id := 1, amount := 10, description := "other", txType := "income",
    category := "Salary", transactionDate := some d0, userId := 2,
    syncStatus := "synced", serverId := some 4 }

/-- A store holding one row of user 1 and one row of user 2. -/
def c7State : DBState :=
  { transactions := [{ id := 2, amount := 50, description := "mine",
                       txType := "expense", category := "Food",
                       transactionDate := some d0, userId := 1,
                       syncStatus := "pending", serverId := none }, txUser2]
    goals := [], syncQueue := [], nextTxId := 3, nextGoalId := 1, nextQueueId := 1 }

/-- C7 counterexample: with user 1 authenticated, clearLocalData also
removes user 2's transaction row, so rows of other users are not left
unchanged. -/
theorem c7_counterexample :
    txUser2 ∈ c7State.transactions ∧ txUser2.userId = 2 ∧
    clearLocalData true c7State =
      Except.ok { c7State with transactions := [], goals := [], syncQueue := [] } ∧
    txUser2 ∉ ({ c7State with
                 transactions := []
                 goals := []
                 syncQueue := [] } : DBState).transactions := by
  refine ⟨by decide, by decide, rfl, by decide⟩

/-- C7 (amended): clearLocalData empties all three tables outright — it
removes every user's rows, not only the current user's, since the three
DELETE statements carry no user filter. -/
theorem c7_clear_removes_everything (s : DBState) :
    clearLocalData true s =
      Except.ok { s with transactions := [], goals := [], syncQueue := [] } := rfl

/-! ### Claim C6 -/

/-- A transaction input whose amount is not a positive number. -/
def txNeg : TxInput :=
  { amount := -5, desc := "bad", txType := "expense", category := "Food",
    date := some d0 }

/-- C6 counterexample: an amount of -5 does not parse to a positive number,
yet addTransaction accepts it, writes the row and queues the intent instead
of rejecting synchronously. -/
theorem c6_counterexample :
    txNeg.amount = -5 ∧
    addTransaction true (some 1) d0 txNeg emptyDB =
      Except.ok ({ transactions := [newTxRow 1 (some d0) txNeg emptyDB],
                   goals := [],
                   syncQueue := [newCreateEntry (some d0) txNeg emptyDB],
                   nextTxId := 2, nextGoalId := 1, nextQueueId := 2 }, 1) ∧
    (newTxRow 1 (some d0) txNeg emptyDB).amount = -5 := by
  refine ⟨by decide, rfl, by decide⟩

/-- C6 (amended): addTransaction performs no amount validation — every
input is accepted, the row is written with the given amount — while an
invalid calendar date is indeed not rejected but replaced by the current
date in both the stored row and the queued create intent. -/
theorem c6_no_amount_validation_date_substituted (uid : Nat) (today : Date)
    (tx : TxInput) (s : DBState) :
    ∃ s1, addTransaction true (some uid) today tx s = .ok (s1, s.nextTxId) ∧
      (∃ row, s1.transactions = s.transactions ++ [row] ∧
        row.amount = tx.amount ∧ row.syncStatus = "pending" ∧ row.serverId = none ∧
        row.transactionDate =
          (if isValidDateString tx.date then tx.date else some today)) ∧
      (∃ qe, s1.syncQueue = s.syncQueue ++ [qe] ∧ qe.operation = "create" ∧
        qe.data = QueueData.txPayload
          { tx with date := if isValidDateString tx.date then tx.date else some today }) := by
  refine ⟨_, rfl, ⟨newTxRow uid _ tx s, rfl, rfl, rfl, rfl, rfl⟩,
    ⟨newCreateEntry _ tx s, rfl, rfl, rfl⟩⟩

/-! ### Claim C5 -/

/-- C5 counterexample: updating transaction id 5 in an empty store (the id
does not exist) does not fail with NotFound — the call succeeds and still
appends an update intent to the sync queue. -/
theorem c5_counterexample :
    updateTransaction true (some 1) 5 tx0 emptyDB =
      Except.ok { emptyDB with
                  syncQueue := [newUpdateEntry 5 tx0 emptyDB],
                  nextQueueId := 2 } ∧
    (newUpdateEntry 5 tx0 emptyDB).operation = "update" := by
  exact ⟨rfl, rfl⟩

/-- C5 (amended): an update call whose target id is absent or not owned by
the caller does not fail: the primary-table UPDATE matches zero rows, so no
row changes, but an update intent is nevertheless appended to the sync
queue — for transactions and goals alike. -/
theorem c5_update_missing_id_silently_queues (uid id : Nat) (tx : TxInput)
    (g : GoalInput) (s : DBState)
    (htx : ∀ r ∈ s.transactions, ¬(r.id = id ∧ r.userId = uid))
    (hg : ∀ r ∈ s.goals, ¬(r.id = id ∧ r.userId = uid)) :
    (updateTransaction true (some uid) id tx s =
      .ok { s with
            syncQueue := s.syncQueue ++ [newUpdateEntry id tx s]
            nextQueueId := s.nextQueueId + 1 }) ∧
    (updateGoal true (some uid) id g s =
      .ok { s with
            syncQueue := s.syncQueue ++
              [{ id := s.nextQueueId, tableName := "goals", recordId := id,
                 operation := "update", data := .goalPayload g }]
            nextQueueId := s.nextQueueId + 1 }) := by
  constructor
  · show Except.ok _ = _
    congr 1
    have hmap : s.transactions.map (fun r =>
        if r.id = id ∧ r.userId = uid then
          { r with amount := tx.amount, description := tx.desc,
                   txType := tx.txType, category := tx.category,
                   transactionDate := tx.date, syncStatus := "pending" }
        else r) = s.transactions := by
      apply map_self_of_fix
      intro a ha
      simp [htx a ha]
    simp [hmap]
  · show Except.ok _ = _
    congr 1
    have hmap : s.goals.map (fun r =>
        if r.id = id ∧ r.userId = uid then
          { r with targetAmount := g.targetAmount, targetMonth := g.targetMonth,
                   targetYear := g.targetYear, syncStatus := "pending" }
        else r) = s.goals := by
      apply map_self_of_fix
      intro a ha
      simp [hg a ha]
    simp [hmap]

/-- C5 witness: the amended theorem applied to the empty store. -/
theorem c5_update_missing_id_silently_queues_witness :
    updateTransaction true (some 1) 5 tx0 emptyDB =
      .ok { emptyDB with
            syncQueue := [newUpdateEntry 5 tx0 emptyDB]
            nextQueueId := 2 } :=
  (c5_update_missing_id_silently_queues 1 5 tx0 g0 emptyDB
    (by intro r hr; simp [emptyDB] at hr)
    (by intro r hr; simp [emptyDB] at hr)).1

/-! ### Claim C9 -/

/-- C9: getGoalProgress equals the month's income sum minus its expense sum
over the caller's transactions, floored at zero, and every value it returns
is non-negative even when expenses strictly exceed income. -/
theorem c9_goal_progress_floor (uid month year : Nat) (s : DBState) :
    getGoalProgress true (some uid) false month year s =
      .ok (max 0 (specIncomeSum uid month year s - specExpenseSum uid month year s)) ∧
    (∀ (db : Bool) (user : Option Nat) (qf : Bool) (v : Int),
      getGoalProgress db user qf month year s = .ok v → 0 ≤ v) := by
  constructor
  · simp only [getGoalProgress, specIncomeSum, specExpenseSum, Bool.not_true,
      Bool.false_eq_true, if_false]
    rw [List.filter_filter, List.filter_filter, foldl_amount_sum, foldl_amount_sum]
    simp [Bool.and_comm]
  · intro db user qf v h
    unfold getGoalProgress at h
    cases db with
    | false =>
      simp only [Bool.not_false, if_true, Except.ok.injEq] at h
      omega
    | true =>
      cases user with
      | none =>
        simp only [Bool.not_true, Bool.false_eq_true, if_false, Except.ok.injEq] at h
        omega
      | some uid2 =>
        cases qf with
        | true =>
          simp only [Bool.not_true, Bool.false_eq_true, if_false, if_true,
            Except.ok.injEq] at h
          omega
        | false =>
          simp only [Bool.not_true, Bool.false_eq_true, if_false, Except.ok.injEq] at h
          subst h
          exact le_max_left 0 _

/-- C9 witness: the general theorem applied to a concrete store in which
March 2024 has income 2000 and expenses 2500, returning 0 rather than a
negative number. -/
theorem c9_goal_progress_floor_witness :
    getGoalProgress true (some 1) false 3 2024
      { transactions := [{ id := 1, amount := 2000, description := "pay",
                           txType := "income", category := "Salary",
                           transactionDate := some d0, userId := 1,
                           syncStatus := "pending", serverId := none },
                         { id := 2, amount := 2500, description := "rent",
                           txType := "expense", category := "Home",
                           transactionDate := some d0, userId := 1,
                           syncStatus := "pending", serverId := none }]
        goals := [], syncQueue := [], nextTxId := 3, nextGoalId := 1,
        nextQueueId := 1 } = .ok 0 ∧ (0 : Int) ≤ 0 := by
  have h := c9_goal_progress_floor 1 3 2024
    { transactions := [{ id := 1, amount := 2000, description := "pay",
                         txType := "income", category := "Salary",
                         transactionDate := some d0, userId := 1,
                         syncStatus := "pending", serverId := none },
                       { id := 2, amount := 2500, description := "rent",
                         txType := "expense", category := "Home",
                         transactionDate := some d0, userId := 1,
                         syncStatus := "pending", serverId := none }]
      goals := [], syncQueue := [], nextTxId := 3, nextGoalId := 1,
      nextQueueId := 1 }
  refine ⟨?_, le_refl 0⟩
  have h2 := h.2 true (some 1) false
  have h1 := h.1
  rw [h1]
  congr 1

/-! ### Claim C10 -/

/-- C10: the read operations never propagate an error — for a missing
database, an unauthenticated user, or a failed storage query, the two list
reads return the empty list and getGoalProgress returns 0 instead of
throwing. (The store is assumed to hold no rows under owner id 0, the
placeholder id getTransactions substitutes for a missing user.) -/
theorem c10_reads_never_throw (db : Bool) (user : Option Nat) (qf : Bool)
    (month year : Nat) (s : DBState)
    (h0 : ∀ r ∈ s.transactions, r.userId ≠ 0) :
    (∀ e, getTransactions db user qf s ≠ .error e) ∧
    (∀ e, getGoals db user qf s ≠ .error e) ∧
    (∀ e, getGoalProgress db user qf month year s ≠ .error e) ∧
    (db = false ∨ user = none ∨ qf = true →
      getTransactions db user qf s = .ok [] ∧
      getGoals db user qf s = .ok [] ∧
      getGoalProgress db user qf month year s = .ok 0) := by
  have hfilter : s.transactions.filter (fun r => decide (r.userId = userIdOrZero none)) = [] := by
    apply List.filter_eq_nil_iff.mpr
    intro a ha
    simp [userIdOrZero, h0 a ha]
  cases db with
  | false => simp [getTransactions, getGoals, getGoalProgress]
  | true =>
    cases user with
    | none =>
      cases qf with
      | false => simp [getTransactions, getGoals, getGoalProgress, hfilter]
      | true => simp [getTransactions, getGoals, getGoalProgress]
    | some uid =>
      cases qf with
      | false => simp [getTransactions, getGoals, getGoalProgress]
      | true => simp [getTransactions, getGoals, getGoalProgress]

/-- C10 witness: the theorem applied to the empty store with no database,
no user and a failing query. -/
theorem c10_reads_never_throw_witness :
    getTransactions false none true emptyDB = .ok [] ∧
    getGoals false none true emptyDB = .ok [] ∧
    getGoalProgress false none true 3 2024 emptyDB = .ok 0 :=
  (c10_reads_never_throw false none true 3 2024 emptyDB
    (by intro r hr; simp [emptyDB] at hr)).2.2.2 (Or.inl rfl)

/-! ### Claim C3 -/

/-- C3: the repository's dual writes are NOT wrapped in a storage-level
transaction — addTransaction and updateTransaction each issue exactly two
separate auto-committed statements with no transaction delimiters, and the
state after only the first statement (reachable by a crash between the two)
shows the primary mutation without the queue mutation. The final conjuncts
check that the statement traces reproduce exactly what the code's success
path computes. -/
theorem c3_dual_writes_not_atomic (uid id : Nat) (today : Date) (tx : TxInput)
    (s : DBState) :
    (addTransactionStmts uid today tx s).length = 2 ∧
    Stmt.beginTxn ∉ addTransactionStmts uid today tx s ∧
    (execStmts s ((addTransactionStmts uid today tx s).take 1)).transactions =
      s.transactions ++
        [newTxRow uid (if isValidDateString tx.date then tx.date else some today) tx s] ∧
    (execStmts s ((addTransactionStmts uid today tx s).take 1)).syncQueue =
      s.syncQueue ∧
    addTransaction true (some uid) today tx s =
      .ok (execStmts s (addTransactionStmts uid today tx s), s.nextTxId) ∧
    (updateTransactionStmts uid id tx s).length = 2 ∧
    Stmt.beginTxn ∉ updateTransactionStmts uid id tx s ∧
    (execStmts s ((updateTransactionStmts uid id tx s).take 1)).syncQueue =
      s.syncQueue ∧
    updateTransaction true (some uid) id tx s =
      .ok (execStmts s (updateTransactionStmts uid id tx s)) := by
  refine ⟨rfl, ?_, rfl, rfl, rfl, rfl, ?_, rfl, rfl⟩
  · simp [addTransactionStmts]
  · simp [updateTransactionStmts]

/-! ### Claim C2 -/

/-- A never-synced pending row awaiting its create push. -/
def c2Row : TxRow :=
  { id := 1, amount := 50, description := "Lunch", txType := "expense",
    category := "Food", transactionDate := some d0, userId := 1,
    syncStatus := "pending", serverId := none }

/-- Store holding just the pending row. -/
def c2State : DBState :=
  { transactions := [c2Row], goals := [], syncQueue := [], nextTxId := 2,
    nextGoalId := 1, nextQueueId := 1 }

/-- The queued create intent for that row. -/
def c2Entry : QueueEntry :=
  { id := 1, tableName := "transactions", recordId := 1, operation := "create",
    data := .txPayload tx0 }

/-- Remote behaviour: the create is rejected with 409, the fallback update
succeeds. -/
def behConflict : RemoteBehavior :=
  { createResult := fun _ => .conflict, updateOk := fun _ => true,
    deleteOk := fun _ => true }

/-- Remote behaviour: the create succeeds directly with server id 42. -/
def behCreate42 : RemoteBehavior :=
  { createResult := fun _ => .success 42, updateOk := fun _ => true,
    deleteOk := fun _ => true }

/-- C2 counterexample: after the 409-conflict fallback the row is synced but
its server id is still null, whereas a directly successful create stores the
server-assigned id 42 — the two end states differ, contradicting the claim
that they are the same. -/
theorem c2_counterexample :
    syncTransaction behConflict 1 c2Entry c2State =
      .ok { c2State with transactions := [{ c2Row with syncStatus := "synced" }] } ∧
    syncTransaction behCreate42 1 c2Entry c2State =
      .ok { c2State with transactions :=
              [{ c2Row with syncStatus := "synced", serverId := some 42 }] } ∧
    ({ c2Row with syncStatus := "synced" } : TxRow).serverId = none ∧
    ({ c2Row with syncStatus := "synced", serverId := some 42 } : TxRow).serverId ≠ none := by
  refine ⟨rfl, rfl, rfl, by decide⟩

/-- C2 (amended): a queued create rejected with the conflict status is
re-dispatched as an update rather than failing; when that update succeeds
the affected row is marked synced, but — unlike a directly successful
create — no server-assigned remote id is written: every row's server id is
left exactly as it was. Holds for transactions and goals alike. -/
theorem c2_conflict_fallback_keeps_server_id (beh : RemoteBehavior)
    (uid : Nat) (e : QueueEntry) (s : DBState)
    (hop : e.operation = "create")
    (hc : beh.createResult e = .conflict)
    (hu : beh.updateOk e = true) :
    (∃ s1, syncTransaction beh uid e s = .ok s1 ∧
      s1.transactions = s.transactions.map (fun r =>
        if r.id = e.recordId then { r with syncStatus := "synced" } else r) ∧
      s1.transactions.map TxRow.serverId = s.transactions.map TxRow.serverId ∧
      s1.goals = s.goals ∧ s1.syncQueue = s.syncQueue) ∧
    (∃ s2, syncGoal beh uid e s = .ok s2 ∧
      s2.goals = s.goals.map (fun r =>
        if r.id = e.recordId then { r with syncStatus := "synced" } else r) ∧
      s2.goals.map GoalRow.serverId = s.goals.map GoalRow.serverId ∧
      s2.transactions = s.transactions ∧ s2.syncQueue = s.syncQueue) := by
  constructor
  · have hstep : syncTransaction beh uid e s =
        .ok { s with transactions := s.transactions.map (fun r =>
                if r.id = e.recordId then { r with syncStatus := "synced" } else r) } := by
      unfold syncTransaction syncTransactionUpdate
      rw [if_pos hop, hc, if_pos hu]
    refine ⟨_, hstep, rfl, ?_, rfl, rfl⟩
    rw [List.map_map]
    apply List.map_congr_left
    intro a _
    by_cases h : a.id = e.recordId <;> simp [h]
  · have hstep : syncGoal beh uid e s =
        .ok { s with goals := s.goals.map (fun r =>
                if r.id = e.recordId then { r with syncStatus := "synced" } else r) } := by
      unfold syncGoal syncGoalUpdate
      rw [if_pos hop, hc, if_pos hu]
    refine ⟨_, hstep, rfl, ?_, rfl, rfl⟩
    rw [List.map_map]
    apply List.map_congr_left
    intro a _
    by_cases h : a.id = e.recordId <;> simp [h]

/-- C2 witness: the amended theorem at the concrete conflict scenario. -/
theorem c2_conflict_fallback_keeps_server_id_witness :
    ∃ s1, syncTransaction behConflict 1 c2Entry c2State = .ok s1 ∧
      s1.transactions = c2State.transactions.map (fun r =>
        if r.id = c2Entry.recordId then { r with syncStatus := "synced" } else r) ∧
      s1.transactions.map TxRow.serverId = c2State.transactions.map TxRow.serverId ∧
      s1.goals = c2State.goals ∧ s1.syncQueue = c2State.syncQueue :=
  (c2_conflict_fallback_keeps_server_id behConflict 1 c2Entry c2State rfl rfl rfl).1

/-! ### Claim C8 -/

/-- C8: delete behaviour — an absent or not-owned id fails with NotFound
(and, the lookup preceding any write, the store is untouched); a row whose
remote id is null is removed with no sync-queue entry; a row with a remote
id is removed and a delete intent carrying that remote id is appended.
Remote ids are assumed non-zero (they are server-assigned row ids; the JS
truthiness test would also skip a zero id). -/
theorem c8_delete_paths (uid id : Nat) (s : DBState)
    (hpos : ∀ r ∈ s.transactions, r.serverId ≠ some 0)
    (hposg : ∀ r ∈ s.goals, r.serverId ≠ some 0) :
    ((∀ r ∈ s.transactions, ¬(r.id = id ∧ r.userId = uid)) →
      deleteTransaction true (some uid) id s = .error "Transaction not found") ∧
    (∀ ex, s.transactions.find? (fun r => decide (r.id = id ∧ r.userId = uid)) = some ex →
      ex.serverId = none →
      deleteTransaction true (some uid) id s =
        .ok { s with
              transactions := s.transactions.filter
                (fun r => !decide (r.id = id ∧ r.userId = uid)) }) ∧
    (∀ ex sid, s.transactions.find? (fun r => decide (r.id = id ∧ r.userId = uid)) = some ex →
      ex.serverId = some sid →
      deleteTransaction true (some uid) id s =
        .ok { s with
              transactions := s.transactions.filter
                (fun r => !decide (r.id = id ∧ r.userId = uid))
              syncQueue := s.syncQueue ++
                [{ id := s.nextQueueId, tableName := "transactions",
                   recordId := id, operation := "delete",
                   data := .deletePayload sid }]
              nextQueueId := s.nextQueueId + 1 }) ∧
    ((∀ r ∈ s.goals, ¬(r.id = id ∧ r.userId = uid)) →
      deleteGoal true (some uid) id s = .error "Goal not found") ∧
    (∀ ex, s.goals.find? (fun r => decide (r.id = id ∧ r.userId = uid)) = some ex →
      ex.serverId = none →
      deleteGoal true (some uid) id s =
        .ok { s with
              goals := s.goals.filter
                (fun r => !decide (r.id = id ∧ r.userId = uid)) }) ∧
    (∀ ex sid, s.goals.find? (fun r => decide (r.id = id ∧ r.userId = uid)) = some ex →
      ex.serverId = some sid →
      deleteGoal true (some uid) id s =
        .ok { s with
              goals := s.goals.filter
                (fun r => !decide (r.id = id ∧ r.userId = uid))
              syncQueue := s.syncQueue ++
                [{ id := s.nextQueueId, tableName := "goals",
                   recordId := id, operation := "delete",
                   data := .deletePayload sid }]
              nextQueueId := s.nextQueueId + 1 }) := by
  refine ⟨?_, ?_, ?_, ?_, ?_, ?_⟩
  · intro hnone
    have hfind : s.transactions.find? (fun r => decide (r.id = id ∧ r.userId = uid)) = none := by
      apply List.find?_eq_none.mpr
      intro x hx
      simp [hnone x hx]
    simp only [Bool.decide_and] at hfind
    simp [deleteTransaction, hfind]
  · intro ex hfind hnull
    have hmem : ex ∈ s.transactions := List.mem_of_find?_eq_some hfind
    simp only [Bool.decide_and] at hfind
    simp [deleteTransaction, hfind, hnull]
  · intro ex sid hfind hsid
    have hmem : ex ∈ s.transactions := List.mem_of_find?_eq_some hfind
    have hne : sid ≠ 0 := by
      intro h
      exact hpos ex hmem (h ▸ hsid)
    simp only [Bool.decide_and] at hfind
    simp [deleteTransaction, hfind, hsid, hne]
  · intro hnone
    have hfind : s.goals.find? (fun r => decide (r.id = id ∧ r.userId = uid)) = none := by
      apply List.find?_eq_none.mpr
      intro x hx
      simp [hnone x hx]
    simp only [Bool.decide_and] at hfind
    simp [deleteGoal, hfind]
  · intro ex hfind hnull
    have hmem : ex ∈ s.goals := List.mem_of_find?_eq_some hfind
    simp only [Bool.decide_and] at hfind
    simp [deleteGoal, hfind, hnull]
  · intro ex sid hfind hsid
    have hmem : ex ∈ s.goals := List.mem_of_find?_eq_some hfind
    have hne : sid ≠ 0 := by
      intro h
      exact hposg ex hmem (h ▸ hsid)
    simp only [Bool.decide_and] at hfind
    simp [deleteGoal, hfind, hsid, hne]

/-- A synced transaction row carrying remote id 7, for the C8 witness. -/
def c8Row : TxRow :=
  { id := 3, amount := 20, description := "Taxi", txType := "expense",
    category := "Travel", transactionDate := some d0, userId := 1,
    syncStatus := "synced", serverId := some 7 }

/-- Store holding just that row. -/
def c8State : DBState :=
  { transactions := [c8Row], goals := [], syncQueue := [], nextTxId := 4,
    nextGoalId := 1, nextQueueId := 5 }

/-- C8 witness: deleting the synced row removes it and queues a delete
intent carrying remote id 7. -/
theorem c8_delete_paths_witness :
    deleteTransaction true (some 1) 3 c8State =
      .ok { c8State with
            transactions := c8State.transactions.filter
              (fun r => !decide (r.id = 3 ∧ r.userId = 1))
            syncQueue := c8State.syncQueue ++
              [{ id := c8State.nextQueueId, tableName := "transactions",
                 recordId := 3, operation := "delete",
                 data := .deletePayload 7 }]
            nextQueueId := c8State.nextQueueId + 1 } :=
  (c8_delete_paths 1 3 c8State (by decide) (by decide)).2.2.1 c8Row 7 (by decide) rfl

/-! ### Push-phase characterization lemmas -/

/-- Processing one queue entry: when the entry's network call succeeds the
result is a state with the queue untouched; when it fails the error is
propagated to the loop's catch. -/
theorem processEntry_spec (beh : RemoteBehavior) (uid : Nat) (e : QueueEntry)
    (s : DBState) :
    (entrySucceeds beh e = true →
      ∃ s1, processEntry beh uid e s = .ok s1 ∧ s1.syncQueue = s.syncQueue) ∧
    (entrySucceeds beh e = false →
      ∃ msg, processEntry beh uid e s = .error msg) := by
  unfold processEntry syncTransaction syncGoal syncTransactionUpdate syncGoalUpdate
    entrySucceeds
  by_cases ht : e.tableName = "transactions" <;>
    by_cases hg : e.tableName = "goals" <;>
      by_cases hco : e.operation = "create" <;>
        by_cases hup : e.operation = "update" <;>
          by_cases hde : e.operation = "delete" <;>
            simp only [ht, hg, hco, hup, hde] <;>
    first
      | ((cases hd : beh.deleteOk e <;> simp [hd]); done)
      | ((cases hu : beh.updateOk e <;> simp [hu]); done)
      | (simp; done)
      | ((cases hcr : beh.createResult e <;> simp [hcr] <;>
           try ((cases hu : beh.updateOk e <;> simp [hu]); done)); done)

/-- One push iteration, seen on the queue column: a successful entry is
deleted from the queue, a failed one leaves the state untouched. -/
theorem pushStep_queue (beh : RemoteBehavior) (uid : Nat) (s : DBState)
    (e : QueueEntry) :
    (pushStep beh uid s e).syncQueue =
      if entrySucceeds beh e = true then
        s.syncQueue.filter (fun q => q.id ≠ e.id)
      else s.syncQueue := by
  cases hsucc : entrySucceeds beh e with
  | false =>
    obtain ⟨msg, hmsg⟩ := (processEntry_spec beh uid e s).2 hsucc
    unfold pushStep
    rw [hmsg]
    simp
  | true =>
    obtain ⟨s1, h1, hq⟩ := (processEntry_spec beh uid e s).1 hsucc
    unfold pushStep
    rw [h1]
    simp [hq]

/-- The queue after folding the push over a list of entries. -/
theorem pushFold_queue (beh : RemoteBehavior) (uid : Nat) :
    ∀ (L : List QueueEntry) (s : DBState),
      (L.foldl (pushStep beh uid) s).syncQueue =
        L.foldl (fun acc e =>
          if entrySucceeds beh e = true then acc.filter (fun q => q.id ≠ e.id)
          else acc) s.syncQueue := by
  intro L
  induction L with
  | nil => intro s; rfl
  | cons e t ih =>
    intro s
    simp only [List.foldl_cons]
    rw [ih]
    congr 1
    exact pushStep_queue beh uid s e

/-- Folding the per-entry queue deletions equals a single filter keeping
the entries whose id is claimed by no successful processed entry. -/
theorem pushFold_filter (beh : RemoteBehavior) :
    ∀ (L : List QueueEntry) (acc : List QueueEntry),
      L.foldl (fun acc e =>
          if entrySucceeds beh e = true then acc.filter (fun q => q.id ≠ e.id)
          else acc) acc =
        acc.filter (fun q =>
          decide (∀ e ∈ L, entrySucceeds beh e = true → q.id ≠ e.id)) := by
  intro L
  induction L with
  | nil =>
    intro acc
    symm
    apply List.filter_eq_self.mpr
    intro a _
    simp
  | cons e t ih =>
    intro acc
    simp only [List.foldl_cons]
    cases hsucc : entrySucceeds beh e with
    | false =>
      rw [if_neg (by simp [hsucc]), ih]
      apply List.filter_congr
      intro q _
      apply decide_eq_decide.mpr
      constructor
      · intro h x hx hsx
        rcases List.mem_cons.mp hx with rfl | hxt
        · rw [hsucc] at hsx
          cases hsx
        · exact h x hxt hsx
      · intro h x hx hsx
        exact h x (List.mem_cons_of_mem e hx) hsx
    | true =>
      rw [if_pos (by simp [hsucc]), ih, List.filter_filter]
      apply List.filter_congr
      intro q _
      rw [← Bool.decide_and]
      apply decide_eq_decide.mpr
      constructor
      · intro ⟨h1, h2⟩ x hx hsx
        rcases List.mem_cons.mp hx with rfl | hxt
        · exact h2
        · exact h1 x hxt hsx
      · intro h
        exact ⟨fun x hx hsx => h x (List.mem_cons_of_mem e hx) hsx,
               h e (List.mem_cons_self e t) hsucc⟩

/-- A pull whose fetch fails changes nothing: both fetches precede every
write and the surrounding catch swallows the error. -/
theorem pull_fetch_fail_noop (token db : Bool) (user : Option Nat)
    (rts : List RemoteTx) (rgs : List RemoteGoal) (s : DBState) :
    pullLatestData token db user false rts rgs s = s := by
  unfold pullLatestData
  cases user with
  | none => rfl
  | some uid => cases token <;> cases db <;> rfl

/-! ### Claim C4 -/

/-- A remote that fails every call. -/
def behAllFail : RemoteBehavior :=
  { createResult := fun _ => .failure, updateOk := fun _ => false,
    deleteOk := fun _ => false }

/-- C4 counterexample: with connectivity, token and user present but the
pull fetch failing, sync() returns normally — it does not throw, contrary
to the claim that a pull-phase failure causes sync() to throw. -/
theorem c4_counterexample :
    syncData true true true (some 1) behAllFail false [] [] emptyDB =
      .ok emptyDB ∧
    (∀ msg, syncData true true true (some 1) behAllFail false [] [] emptyDB ≠
      .error msg) := by
  refine ⟨rfl, ?_⟩
  intro msg h
  rw [show syncData true true true (some 1) behAllFail false [] [] emptyDB =
    .ok emptyDB from rfl] at h
  cases h

/-- C4 (amended): when its preconditions hold, sync() never throws — not
for individual queue-entry failures and not for a pull-phase failure
either, since pullLatestData catches its own errors. Each failed entry
stays in the queue, in order, while every successfully pushed entry is
removed (queue-row ids are pairwise distinct, as AUTOINCREMENT guarantees),
and a failed fetch applies nothing: the state is exactly the push-phase
result. -/
theorem c4_sync_never_throws (uid : Nat) (beh : RemoteBehavior)
    (fetchOk : Bool) (rts : List RemoteTx) (rgs : List RemoteGoal)
    (s : DBState) (hnd : (s.syncQueue.map QueueEntry.id).Nodup) :
    (∃ s1, syncData true true true (some uid) beh fetchOk rts rgs s = .ok s1) ∧
    (pushPhase beh uid s).syncQueue =
      s.syncQueue.filter (fun e => !entrySucceeds beh e) ∧
    (fetchOk = false →
      syncData true true true (some uid) beh fetchOk rts rgs s =
        .ok (pushPhase beh uid s)) := by
  refine ⟨⟨_, rfl⟩, ?_, ?_⟩
  · unfold pushPhase
    rw [pushFold_queue, pushFold_filter]
    apply List.filter_congr
    intro q hq
    cases hsq : entrySucceeds beh q with
    | false =>
      simp only [Bool.not_false]
      apply decide_eq_true
      intro x hx hsx hid
      have : q = x := List.inj_on_of_nodup_map hnd hq hx hid
      rw [← this] at hsx
      rw [hsq] at hsx
      cases hsx
    | true =>
      simp only [Bool.not_true]
      apply decide_eq_false
      intro hall
      exact hall q hq hsq rfl
  · intro hf
    subst hf
    show Except.ok _ = _
    rw [pull_fetch_fail_noop]

/-- C4 witness: the amended theorem at a concrete two-entry queue where the
first entry fails and the second succeeds — the failed entry remains, the
successful one is removed, and the failed fetch leaves the pushed state. -/
theorem c4_sync_never_throws_witness :
    (∃ s1, syncData true true true (some 1) behAllFail false [] []
      { emptyDB with
        syncQueue := [{ id := 1, tableName := "transactions", recordId := 1,
                        operation := "delete", data := .deletePayload 9 },
                      { id := 2, tableName := "other", recordId := 1,
                        operation := "create", data := .deletePayload 9 }] } = .ok s1) ∧
    (pushPhase behAllFail 1
      { emptyDB with
        syncQueue := [{ id := 1, tableName := "transactions", recordId := 1,
                        operation := "delete", data := .deletePayload 9 },
                      { id := 2, tableName := "other", recordId := 1,
                        operation := "create", data := .deletePayload 9 }] }).syncQueue =
      ({ emptyDB with
         syncQueue := [{ id := 1, tableName := "transactions", recordId := 1,
                         operation := "delete", data := .deletePayload 9 },
                       { id := 2, tableName := "other", recordId := 1,
                         operation := "create", data := .deletePayload 9 }] } :
        DBState).syncQueue.filter (fun e => !entrySucceeds behAllFail e) :=
  ⟨(c4_sync_never_throws 1 behAllFail false [] [] _ (by decide)).1,
   (c4_sync_never_throws 1 behAllFail false [] [] _ (by decide)).2.1⟩

/-! ### Pull-phase lemmas -/

/-- The transaction upsert leaves the goals table and its counter alone. -/
theorem upsertTx_goals_eq (uid : Nat) (s : DBState) (t : RemoteTx) :
    (upsertTx uid s t).goals = s.goals ∧
    (upsertTx uid s t).nextGoalId = s.nextGoalId := by
  unfold upsertTx
  split <;> exact ⟨rfl, rfl⟩

/-- Folding transaction upserts leaves the goals table and counter alone. -/
theorem foldTx_goals_eq (uid : Nat) :
    ∀ (rts : List RemoteTx) (s : DBState),
      ((rts.foldl (upsertTx uid) s).goals = s.goals ∧
       (rts.foldl (upsertTx uid) s).nextGoalId = s.nextGoalId) := by
  intro rts
  induction rts with
  | nil => intro s; exact ⟨rfl, rfl⟩
  | cons t ts ih =>
    intro s
    simp only [List.foldl_cons]
    obtain ⟨h1, h2⟩ := ih (upsertTx uid s t)
    obtain ⟨g1, g2⟩ := upsertTx_goals_eq uid s t
    exact ⟨h1.trans g1, h2.trans g2⟩

/-- A row not matched by the fetched record survives one transaction upsert
unchanged. -/
theorem upsertTx_mem (uid : Nat) (s : DBState) (t : RemoteTx) (r : TxRow)
    (hr : r ∈ s.transactions)
    (hno : ¬(r.serverId = some t.id ∧ r.userId = uid)) :
    r ∈ (upsertTx uid s t).transactions := by
  unfold upsertTx
  split
  · exact mem_map_of_fix hr (if_neg hno)
  · exact List.mem_append_left _ hr

/-- A row matched by no fetched record survives the whole transaction-upsert
fold unchanged. -/
theorem foldTx_mem (uid : Nat) (r : TxRow) :
    ∀ (rts : List RemoteTx) (s : DBState),
      r ∈ s.transactions →
      (∀ t ∈ rts, ¬(r.serverId = some t.id ∧ r.userId = uid)) →
      r ∈ (rts.foldl (upsertTx uid) s).transactions := by
  intro rts
  induction rts with
  | nil => intro s hr _; exact hr
  | cons t ts ih =>
    intro s hr hno
    simp only [List.foldl_cons]
    exact ih (upsertTx uid s t)
      (upsertTx_mem uid s t r hr (hno t (List.mem_cons_self t ts)))
      (fun x hx => hno x (List.mem_cons_of_mem t hx))

/-- After one transaction upsert, every row of the user carrying the
fetched record's id as server id is marked synced. -/
theorem upsertTx_marks (uid : Nat) (s : DBState) (t : RemoteTx) :
    ∀ r ∈ (upsertTx uid s t).transactions,
      r.userId = uid → r.serverId = some t.id → r.syncStatus = "synced" := by
  unfold upsertTx
  by_cases hany :
      s.transactions.any (fun r => decide (r.serverId = some t.id ∧ r.userId = uid)) = true
  · rw [if_pos hany]
    intro r hr hu hsid
    obtain ⟨a, ha, rfl⟩ := List.mem_map.mp hr
    by_cases hc : a.serverId = some t.id ∧ a.userId = uid
    · rw [if_pos hc]
    · rw [if_neg hc] at hu hsid
      exact absurd ⟨hsid, hu⟩ hc
  · rw [if_neg hany]
    intro r hr hu hsid
    rcases List.mem_append.mp hr with hold | hnew
    · exfalso
      apply hany
      apply List.any_eq_true.mpr
      exact ⟨r, hold, by simp [hsid, hu]⟩
    · rw [List.mem_singleton.mp hnew]

/-- Being synced for a fixed server id is stable under further transaction
upserts (they only ever set the status to synced). -/
theorem upsertTx_stable (uid j : Nat) (s : DBState) (t : RemoteTx)
    (h : ∀ r ∈ s.transactions,
      r.userId = uid → r.serverId = some j → r.syncStatus = "synced") :
    ∀ r ∈ (upsertTx uid s t).transactions,
      r.userId = uid → r.serverId = some j → r.syncStatus = "synced" := by
  unfold upsertTx
  split
  · intro r hr hu hsid
    obtain ⟨a, ha, rfl⟩ := List.mem_map.mp hr
    by_cases hc : a.serverId = some t.id ∧ a.userId = uid
    · rw [if_pos hc]
    · rw [if_neg hc] at hu hsid ⊢
      exact h a ha hu hsid
  · intro r hr hu hsid
    rcases List.mem_append.mp hr with hold | hnew
    · exact h r hold hu hsid
    · rw [List.mem_singleton.mp hnew]

/-- Fold version of the previous stability lemma. -/
theorem foldTx_stable (uid j : Nat) :
    ∀ (rts : List RemoteTx) (s : DBState),
      (∀ r ∈ s.transactions,
        r.userId = uid → r.serverId = some j → r.syncStatus = "synced") →
      ∀ r ∈ (rts.foldl (upsertTx uid) s).transactions,
        r.userId = uid → r.serverId = some j → r.syncStatus = "synced" := by
  intro rts
  induction rts with
  | nil => intro s h; exact h
  | cons t ts ih =>
    intro s h
    simp only [List.foldl_cons]
    exact ih (upsertTx uid s t) (upsertTx_stable uid j s t h)

/-- After the transaction-upsert fold, every row of the user whose server
id occurs in the fetched set is marked synced. -/
theorem foldTx_synced (uid : Nat) :
    ∀ (rts : List RemoteTx) (s : DBState),
      ∀ r ∈ (rts.foldl (upsertTx uid) s).transactions,
        r.userId = uid → (∃ t ∈ rts, r.serverId = some t.id) →
        r.syncStatus = "synced" := by
  intro rts
  induction rts with
  | nil =>
    intro s r _ _ hex
    obtain ⟨t, ht, _⟩ := hex
    exact absurd ht (List.not_mem_nil t)
  | cons t ts ih =>
    intro s r hr hu hex
    obtain ⟨x, hx, hsid⟩ := hex
    simp only [List.foldl_cons] at hr
    rcases List.mem_cons.mp hx with rfl | hxt
    · exact foldTx_stable uid x.id ts (upsertTx uid s x)
        (upsertTx_marks uid s x) r hr hu hsid
    · exact ih (upsertTx uid s t) r hr hu ⟨x, hxt, hsid⟩

/-- Pending rows survive the transaction cleanup (it only deletes rows
marked synced). -/
theorem cleanupTx_pending_mem (uid : Nat) (ids : List Nat) (s : DBState)
    (r : TxRow) (hr : r ∈ s.transactions) (hp : r.syncStatus = "pending") :
    r ∈ (cleanupTx uid ids s).transactions := by
  unfold cleanupTx
  split
  · exact hr
  · exact List.mem_filter.mpr ⟨hr, by simp [hp]⟩

/-- Rows in the transaction cleanup's output come from its input. -/
theorem cleanupTx_mem_subset (uid : Nat) (ids : List Nat) (s : DBState)
    (r : TxRow) (hr : r ∈ (cleanupTx uid ids s).transactions) :
    r ∈ s.transactions := by
  unfold cleanupTx at hr
  split at hr
  · exact hr
  · exact (List.mem_filter.mp hr).1

/-- The transaction cleanup leaves the goals table alone. -/
theorem cleanupTx_goals_eq (uid : Nat) (ids : List Nat) (s : DBState) :
    (cleanupTx uid ids s).goals = s.goals := by
  unfold cleanupTx
  split <;> rfl

/-- Pending goals survive the goal cleanup. -/
theorem cleanupGoal_pending_mem (uid : Nat) (ids : List Nat) (s : DBState)
    (g : GoalRow) (hg : g ∈ s.goals) (hp : g.syncStatus = "pending") :
    g ∈ (cleanupGoal uid ids s).goals := by
  unfold cleanupGoal
  split
  · exact hg
  · exact List.mem_filter.mpr ⟨hg, by simp [hp]⟩

/-- The goal cleanup leaves the transactions table alone. -/
theorem cleanupGoal_transactions_eq (uid : Nat) (ids : List Nat) (s : DBState) :
    (cleanupGoal uid ids s).transactions = s.transactions := by
  unfold cleanupGoal
  split <;> rfl

/-- Invariant of the goals table: ids are pairwise distinct and below the
AUTOINCREMENT counter (SQLite guarantees both). -/
def goalInv (s : DBState) : Prop :=
  (s.goals.map GoalRow.id).Nodup ∧ ∀ g ∈ s.goals, g.id < s.nextGoalId

/-- Goal ids after a map that fixes every row's id. -/
theorem map_id_of_fix_id (l : List GoalRow) (f : GoalRow → GoalRow)
    (h : ∀ a ∈ l, (f a).id = a.id) :
    (l.map f).map GoalRow.id = l.map GoalRow.id := by
  rw [List.map_map]
  exact List.map_congr_left (fun a ha => h a ha)

/-- The goal upsert preserves the goals-table invariant. -/
theorem upsertGoal_inv (uid : Nat) (s : DBState) (rg : RemoteGoal)
    (hinv : goalInv s) : goalInv (upsertGoal uid s rg) := by
  obtain ⟨hnd, hfr⟩ := hinv
  unfold upsertGoal
  split
  · constructor
    · show ((s.goals.map _).map GoalRow.id).Nodup
      rw [map_id_of_fix_id]
      · exact hnd
      · intro a _
        by_cases hc : a.serverId = some rg.id ∧ a.userId = uid <;> simp [hc]
    · intro g hg
      obtain ⟨a, ha, rfl⟩ := List.mem_map.mp hg
      show _ < s.nextGoalId
      by_cases hc : a.serverId = some rg.id ∧ a.userId = uid
      · rw [if_pos hc]
        exact hfr a ha
      · rw [if_neg hc]
        exact hfr a ha
  · cases hfind : s.goals.find? (fun r =>
        decide (r.userId = uid ∧ r.targetMonth = rg.targetMonth ∧
                r.targetYear = rg.targetYear ∧ r.serverId = none)) with
    | some lg =>
      constructor
      · show ((s.goals.map _).map GoalRow.id).Nodup
        rw [map_id_of_fix_id]
        · exact hnd
        · intro a _
          by_cases hc : a.id = lg.id ∧ a.userId = uid <;> simp [hc]
      · intro g hg
        obtain ⟨a, ha, rfl⟩ := List.mem_map.mp hg
        show _ < s.nextGoalId
        by_cases hc : a.id = lg.id ∧ a.userId = uid
        · rw [if_pos hc]
          exact hfr a ha
        · rw [if_neg hc]
          exact hfr a ha
    | none =>
      constructor
      · show ((s.goals ++ [_]).map GoalRow.id).Nodup
        rw [List.map_append]
        apply List.nodup_append.mpr
        refine ⟨hnd, List.nodup_singleton _, ?_⟩
        intro x hx hx1
        obtain ⟨a, ha, rfl⟩ := List.mem_map.mp hx
        have hlt : a.id < s.nextGoalId := hfr a ha
        have : a.id = s.nextGoalId := by
          simpa using hx1
        omega
      · intro g hg
        rcases List.mem_append.mp hg with hold | hnew
        · exact Nat.lt_succ_of_lt (hfr g hold)
        · rw [List.mem_singleton.mp hnew]
          exact Nat.lt_succ_self _

/-- A pending goal matched neither by server id nor by the local-only
month/year attach pattern survives one goal upsert unchanged. -/
theorem upsertGoal_mem (uid : Nat) (s : DBState) (rg : RemoteGoal) (g : GoalRow)
    (hg : g ∈ s.goals) (hinv : goalInv s)
    (hno1 : ¬(g.serverId = some rg.id ∧ g.userId = uid))
    (hno2 : ¬(g.userId = uid ∧ g.targetMonth = rg.targetMonth ∧
              g.targetYear = rg.targetYear ∧ g.serverId = none)) :
    g ∈ (upsertGoal uid s rg).goals := by
  obtain ⟨hnd, _⟩ := hinv
  unfold upsertGoal
  split
  · exact mem_map_of_fix hg (if_neg hno1)
  · cases hfind : s.goals.find? (fun r =>
        decide (r.userId = uid ∧ r.targetMonth = rg.targetMonth ∧
                r.targetYear = rg.targetYear ∧ r.serverId = none)) with
    | none =>
      exact List.mem_append_left _ hg
    | some lg =>
      have hlgmem : lg ∈ s.goals := List.mem_of_find?_eq_some hfind
      have hp := List.find?_some hfind
      have hlgpat : lg.userId = uid ∧ lg.targetMonth = rg.targetMonth ∧
          lg.targetYear = rg.targetYear ∧ lg.serverId = none :=
        of_decide_eq_true hp
      apply mem_map_of_fix hg
      apply if_neg
      intro hc
      have hgeq : g = lg := List.inj_on_of_nodup_map hnd hg hlgmem hc.1
      apply hno2
      rw [hgeq]
      exact hlgpat

/-- Fold version: a pending goal matched by no fetched goal survives the
goal-upsert fold unchanged. -/
theorem foldGoal_mem (uid : Nat) (g : GoalRow) :
    ∀ (rgs : List RemoteGoal) (s : DBState),
      g ∈ s.goals → goalInv s →
      (∀ rg ∈ rgs, ¬(g.serverId = some rg.id ∧ g.userId = uid)) →
      (∀ rg ∈ rgs, ¬(g.userId = uid ∧ g.targetMonth = rg.targetMonth ∧
                     g.targetYear = rg.targetYear ∧ g.serverId = none)) →
      g ∈ (rgs.foldl (upsertGoal uid) s).goals := by
  intro rgs
  induction rgs with
  | nil => intro s hg _ _ _; exact hg
  | cons rg rest ih =>
    intro s hg hinv hno1 hno2
    simp only [List.foldl_cons]
    exact ih (upsertGoal uid s rg)
      (upsertGoal_mem uid s rg g hg hinv
        (hno1 rg (List.mem_cons_self rg rest))
        (hno2 rg (List.mem_cons_self rg rest)))
      (upsertGoal_inv uid s rg hinv)
      (fun x hx => hno1 x (List.mem_cons_of_mem rg hx))
      (fun x hx => hno2 x (List.mem_cons_of_mem rg hx))

/-- The goal-upsert fold leaves the transactions table alone. -/
theorem foldGoal_transactions_eq (uid : Nat) :
    ∀ (rgs : List RemoteGoal) (s : DBState),
      (rgs.foldl (upsertGoal uid) s).transactions = s.transactions := by
  intro rgs
  induction rgs with
  | nil => intro s; rfl
  | cons rg rest ih =>
    intro s
    simp only [List.foldl_cons]
    rw [ih (upsertGoal uid s rg)]
    unfold upsertGoal
    split
    · rfl
    · split <;> rfl

/-! ### Claim C1 -/

/-- The successful pull is the two upsert folds followed by the two
cleanups. -/
theorem pull_unfold (uid : Nat) (rts : List RemoteTx) (rgs : List RemoteGoal)
    (s : DBState) :
    pullLatestData true true (some uid) true rts rgs s =
      cleanupGoal uid (rgs.map RemoteGoal.id)
        (cleanupTx uid (rts.map RemoteTx.id)
          (rgs.foldl (upsertGoal uid) (rts.foldl (upsertTx uid) s))) := rfl

/-- A locally edited, still pending transaction row that already carries a
remote id. -/
def c1Row : TxRow :=
  { id := 1, amount := 50, description := "edit", txType := "expense",
    category := "Food", transactionDate := some d0, userId := 1,
    syncStatus := "pending", serverId := some 7 }

/-- Store holding only that pending row. -/
def c1State : DBState :=
  { transactions := [c1Row], goals := [], syncQueue := [], nextTxId := 2,
    nextGoalId := 1, nextQueueId := 1 }

/-- The fetched remote transaction with the same remote id but different
field values. -/
def c1Remote : RemoteTx :=
  { id := 7, amount := 99, desc := "server", txType := "expense",
    category := "Food", date := some { year := 2024, month := 3, day := 2 } }

/-- C1 counterexample: the row is pending before the pull, its remote id 7
appears in the fetched set, and the pull overwrites it — its amount,
description and date now come from the remote record and its status is
synced, so the pending row was not left untouched. -/
theorem c1_counterexample :
    c1Row.syncStatus = "pending" ∧
    (pullLatestData true true (some 1) true [c1Remote] [] c1State).transactions =
      [{ c1Row with
         amount := 99
         description := "server"
         transactionDate := some { year := 2024, month := 3, day := 2 }
         syncStatus := "synced" }] ∧
    c1Row ∉ (pullLatestData true true (some 1) true [c1Remote] [] c1State).transactions := by
  refine ⟨rfl, rfl, ?_⟩
  intro hmem
  rw [show (pullLatestData true true (some 1) true [c1Remote] [] c1State).transactions =
    [{ c1Row with
       amount := 99
       description := "server"
       transactionDate := some { year := 2024, month := 3, day := 2 }
       syncStatus := "synced" }] from rfl] at hmem
  simp [c1Row] at hmem

/-- C1 (amended): the pull never deletes a pending row, and a pending row
is left fully unchanged provided no fetched record matches it — for a
transaction, no fetched remote id equals its stored remote id; for a goal,
additionally no fetched goal targets its month/year through the local-only
attach branch. A transaction row of the user whose stored remote id does
occur in the fetched set instead ends the pull marked synced (its fields
overwritten from the remote record, as the counterexample shows). Assumes
the AUTOINCREMENT facts: goal ids pairwise distinct and below the counter. -/
theorem c1_pull_pending (uid : Nat) (rts : List RemoteTx)
    (rgs : List RemoteGoal) (s : DBState)
    (hnd : (s.goals.map GoalRow.id).Nodup)
    (hfresh : ∀ g ∈ s.goals, g.id < s.nextGoalId) :
    (∀ r ∈ s.transactions, r.syncStatus = "pending" →
      (∀ t ∈ rts, ¬(r.serverId = some t.id ∧ r.userId = uid)) →
      r ∈ (pullLatestData true true (some uid) true rts rgs s).transactions) ∧
    (∀ g ∈ s.goals, g.syncStatus = "pending" →
      (∀ rg ∈ rgs, ¬(g.serverId = some rg.id ∧ g.userId = uid)) →
      (∀ rg ∈ rgs, ¬(g.userId = uid ∧ g.targetMonth = rg.targetMonth ∧
                     g.targetYear = rg.targetYear ∧ g.serverId = none)) →
      g ∈ (pullLatestData true true (some uid) true rts rgs s).goals) ∧
    (∀ r ∈ (pullLatestData true true (some uid) true rts rgs s).transactions,
      r.userId = uid → (∃ t ∈ rts, r.serverId = some t.id) →
      r.syncStatus = "synced") := by
  refine ⟨?_, ?_, ?_⟩
  · intro r hr hp hno
    rw [pull_unfold, cleanupGoal_transactions_eq]
    apply cleanupTx_pending_mem _ _ _ _ ?_ hp
    rw [foldGoal_transactions_eq]
    exact foldTx_mem uid r rts s hr hno
  · intro g hg hp hno1 hno2
    rw [pull_unfold]
    apply cleanupGoal_pending_mem _ _ _ _ ?_ hp
    rw [cleanupTx_goals_eq]
    apply foldGoal_mem uid g rgs _ ?_ ?_ hno1 hno2
    · rw [(foldTx_goals_eq uid rts s).1]
      exact hg
    · constructor
      · rw [(foldTx_goals_eq uid rts s).1]
        exact hnd
      · intro x hx
        rw [(foldTx_goals_eq uid rts s).2]
        rw [(foldTx_goals_eq uid rts s).1] at hx
        exact hfresh x hx
  · intro r hr hu hex
    rw [pull_unfold, cleanupGoal_transactions_eq] at hr
    have hr2 := cleanupTx_mem_subset _ _ _ _ hr
    rw [foldGoal_transactions_eq] at hr2
    exact foldTx_synced uid rts s r hr2 hu hex

/-- C1 witness: in a store with one pending transaction (remote id absent
from the fetched set) and one pending local-only goal for a month no
fetched goal targets, both rows survive the pull unchanged. -/
theorem c1_pull_pending_witness :
    c1Row ∈ (pullLatestData true true (some 1) true
      [{ id := 9, amount := 5, desc := "other", txType := "income",
         category := "Pay", date := some d0 }] []
      { c1State with
        goals := [{ id := 1, targetAmount := 100, targetMonth := 4,
                    targetYear := 2024, userId := 1,
                    syncStatus := "pending", serverId := none }]
        nextGoalId := 2 }).transactions ∧
    ({ id := 1, targetAmount := 100, targetMonth := 4, targetYear := 2024,
       userId := 1, syncStatus := "pending", serverId := none } : GoalRow) ∈
      (pullLatestData true true (some 1) true
        [{ id := 9, amount := 5, desc := "other", txType := "income",
           category := "Pay", date := some d0 }] []
        { c1State with
          goals := [{ id := 1, targetAmount := 100, targetMonth := 4,
                      targetYear := 2024, userId := 1,
                      syncStatus := "pending", serverId := none }]
          nextGoalId := 2 }).goals := by
  have h := c1_pull_pending 1
    [{ id := 9, amount := 5, desc := "other", txType := "income",
       category := "Pay", date := some d0 }] []
    { c1State with
      goals := [{ id := 1, targetAmount := 100, targetMonth := 4,
                  targetYear := 2024, userId := 1,
                  syncStatus := "pending", serverId := none }]
      nextGoalId := 2 }
    (by decide) (by decide)
  exact ⟨h.1 c1Row (by decide) rfl (by decide),
         h.2.1 _ (by decide) rfl (by decide) (by decide)⟩
